import Mathlib

/-!
Verification of the GNU GSS core (generic dispatch layer plus the Kerberos V5
mechanism) against its natural-language specification.

The development shallowly embeds the C sources under `lib/`:
  * `lib/misc.c`        — OID sets (`gss_create_empty_oid_set`,
                          `gss_add_oid_set_member`, `gss_test_oid_set_member`);
  * `lib/context.c`     — the generic `gss_init_sec_context`,
                          `gss_accept_sec_context` dispatch surface;
  * `lib/krb5/context.c`— `gss_krb5_init_sec_context`,
                          `gss_krb5_accept_sec_context`;
  * `lib/krb5/msg.c`    — `gss_krb5_wrap`, `gss_krb5_unwrap`.

Bytes are `Nat` values (always reduced mod 256 where the C code masks), buffers
are `List Nat`, out-parameters become explicit result fields, and the
underlying Shishi (Kerberos) capability — checksums, raw CBC encryption,
randomness, AP-REQ/AP-REP handling — is an abstract oracle record, as §6 of
the specification treats it as an external capability.
-/

namespace Gss

/-! ## Status codes (RFC 2744 layout, as used by the C sources) -/

def GSS_S_COMPLETE : Nat := 0
def GSS_S_CONTINUE_NEEDED : Nat := 1
def GSS_S_BAD_MECH : Nat := 1 <<< 16
def GSS_S_BAD_BINDINGS : Nat := 4 <<< 16
def GSS_S_BAD_MIC : Nat := 6 <<< 16
def GSS_S_NO_CRED : Nat := 7 <<< 16
def GSS_S_NO_CONTEXT : Nat := 8 <<< 16
def GSS_S_DEFECTIVE_TOKEN : Nat := 9 <<< 16
def GSS_S_FAILURE : Nat := 13 <<< 16
def GSS_S_CALL_INACCESSIBLE_READ : Nat := 1 <<< 24
def GSS_S_CALL_BAD_STRUCTURE : Nat := 3 <<< 24

/-- `GSS_ERROR(x)`: the calling-error and routine-error bit fields. -/
def GSS_ERROR (x : Nat) : Bool := x &&& 0xFFFF0000 != 0

/-! ## Request flags -/

def GSS_C_MUTUAL_FLAG : Nat := 2

/-! ## OIDs

An OID value is its DER element byte string (without tag/length), equality is
byte-exact (`gss_oid_equal` in `lib/misc.c`). -/

abbrev Oid := List Nat

/-- The Kerberos V5 mechanism OID 1.2.840.113554.1.2.2 (DER bytes). -/
def krb5Oid : Oid := [0x2a, 0x86, 0x48, 0x86, 0xf7, 0x12, 0x01, 0x02, 0x02]

/-! ## Token encapsulation codec

Modelled from the spec: `lib/asn1.c` (the encapsulation codec used through
`gss_encapsulate_token`, `gss_encapsulate_token_prefix` and
`gss_decapsulate_token` / `_gss_decapsulate_token`) is not under `src/`; §4.1
of the specification defines it: tag byte 0x60, a definite-length encoding of
the total payload length, tag byte 0x06, the OID with its own length, then the
raw payload. Decoding rejects any deviation. -/

/-- Big-endian base-256 digits of `n` (empty for 0). -/
def natBytesBE (n : Nat) : List Nat :=
  if h : n = 0 then []
  else natBytesBE (n / 256) ++ [n % 256]
decreasing_by exact Nat.div_lt_self (Nat.pos_of_ne_zero h) (by norm_num)

/-- DER definite-length encoding of a length `n`. -/
def derLenBytes (n : Nat) : List Nat :=
  if n < 128 then [n] else (0x80 + (natBytesBE n).length) :: natBytesBE n

/-- Big-endian value of a byte list. -/
def beVal (bs : List Nat) : Nat := bs.foldl (fun a b => a * 256 + b) 0

/-- Parse a DER definite length, returning the length and the remainder. -/
def parseDerLen : List Nat → Option (Nat × List Nat)
  | [] => none
  | b :: rest =>
      if b < 128 then some (b, rest)
      else
        let k := b - 128
        if k = 0 then none
        else if rest.length < k then none
        else some (beVal (rest.take k), rest.drop k)

/-- Modelled from the spec: §4.1 Encode `(oid, payload) → bytes`. -/
def gss_encapsulate_token (data : List Nat) (oid : Oid) : List Nat :=
  let inner := 0x06 :: (derLenBytes oid.length ++ (oid ++ data))
  0x60 :: (derLenBytes inner.length ++ inner)

/-- Modelled from the spec: §4.1 `encode_with_prefix` — a fixed two-byte tag
is prepended inside the payload before encapsulation
(`gss_encapsulate_token_prefix`). -/
def gss_encapsulate_token_prefix (data : List Nat) (prefixBytes : List Nat)
    (oid : Oid) : List Nat :=
  gss_encapsulate_token (prefixBytes ++ data) oid

/-- Modelled from the spec: §4.1 Decode `bytes → (oid, payload)`, `none` on
any deviation from the encoding (`DEFECTIVE_TOKEN`). -/
def gss_decapsulate_token (input : List Nat) : Option (Oid × List Nat) :=
  match input with
  | 0x60 :: rest =>
      match parseDerLen rest with
      | some (len, rest2) =>
          if rest2.length = len then
            match rest2 with
            | 0x06 :: r3 =>
                match parseDerLen r3 with
                | some (olen, r4) =>
                    if olen ≤ r4.length then some (r4.take olen, r4.drop olen)
                    else none
                | none => none
            | _ => none
          else none
      | none => none
  | _ => none

/-! ## OID sets (`lib/misc.c`)

A set is its `elements` array (the `count` field is the list length). -/

/-- `gss_test_oid_set_member` (`lib/misc.c:194-221`): the returned `*present`
flag; the major status is always `GSS_S_COMPLETE`.  `none` models
`GSS_C_NO_OID`. -/
def gss_test_oid_set_member (member : Option Oid) (set : List Oid) : Bool :=
  match member with
  | none => false
  | some m => set.any (fun cur => cur == m)

/-- Result of `gss_add_oid_set_member`: major status and the updated set. -/
structure AddResult where
  majStat : Nat
  set : List Oid
  deriving Repr, DecidableEq

/-- `gss_add_oid_set_member` (`lib/misc.c:136-173`).  `none` models a null
`member_oid`; a zero-length OID models the `length == 0 || elements == NULL`
rejection. -/
def gss_add_oid_set_member (member : Option Oid) (set : List Oid) : AddResult :=
  match member with
  | none => ⟨GSS_S_FAILURE, set⟩
  | some m =>
      if m.length = 0 then ⟨GSS_S_FAILURE, set⟩
      else if gss_test_oid_set_member (some m) set then ⟨GSS_S_COMPLETE, set⟩
      else if set.length + 1 = 0 then ⟨GSS_S_FAILURE, set⟩
      else ⟨GSS_S_COMPLETE, set ++ [m]⟩

/-! ## Kerberos V5 context state

Modelled from the spec: the private context struct (`k5internal.h`) is not
under `src/`; §3 of the specification lists its observable fields (`acceptor`
role flag, request flags, `init_seqno`, `accept_seqno`, `reply_done`), and the
sequence counters are the spec's abstract monotone counters.  `keyType` is the
session key's encryption type (`shishi_key_type (k5->key)`); the Shishi
session, ticket and AP handles are carried by the oracle below. -/

structure Krb5Ctx where
  keyType : Nat
  acceptor : Bool
  flags : Nat
  initseqnr : Nat
  acceptseqnr : Nat
  repdone : Bool
  deriving Repr, DecidableEq

/-- Shishi key-type and checksum tags used by `lib/krb5/msg.c`. -/
def SHISHI_DES_CBC_MD5 : Nat := 3
def SHISHI_DES3_CBC_HMAC_SHA1_KD : Nat := 16
def SHISHI_DES_CBC_NONE : Nat := 0x204
def SHISHI_DES3_CBC_NONE : Nat := 0x205
def SHISHI_RSA_MD5_DES_GSS : Nat := 8
def SHISHI_HMAC_SHA1_DES3_KD : Nat := 12
def SHISHI_KEYUSAGE_GSS_R2 : Nat := 22

/-- The Shishi cryptographic capability (§6): keyed checksum, raw CBC
encryption/decryption with a caller-supplied IV, and random bytes.  `none`
models a non-`SHISHI_OK` return code. -/
structure ShishiCrypto where
  randomize : Option (List Nat)
  checksum : Nat → Nat → List Nat → Option (List Nat)
  encryptIv : Nat → List Nat → List Nat → Option (List Nat)
  decryptIv : Nat → List Nat → List Nat → Option (List Nat)

/-! ## Kerberos V5 per-message codec (`lib/krb5/msg.c`) -/

/-- The `C2I` macro (`lib/krb5/msg.c:28-31`): little-endian read of the
leading four bytes. -/
def C2I (b : List Nat) : Nat :=
  (b.getD 0 0 &&& 0xFF) ||| ((b.getD 1 0 &&& 0xFF) <<< 8) |||
  ((b.getD 2 0 &&& 0xFF) <<< 16) ||| ((b.getD 3 0 &&& 0xFF) <<< 24)

/-- The 8-byte sequence-number plaintext built by `gss_krb5_wrap`
(`msg.c:101-105`, `msg.c:169-173`): 4 little-endian bytes of `initseqnr`,
then 4 direction bytes (0xFF when the wrapping context is the acceptor,
0x00 when it is the initiator). -/
def wrapSeqnoBytes (seqnr : Nat) (acceptor : Bool) : List Nat :=
  [seqnr &&& 0xFF, (seqnr >>> 8) &&& 0xFF, (seqnr >>> 16) &&& 0xFF,
   (seqnr >>> 24) &&& 0xFF] ++
  (if acceptor then [0xFF, 0xFF, 0xFF, 0xFF] else [0x00, 0x00, 0x00, 0x00])

/-- The 4 trailing bytes `gss_krb5_unwrap` demands of the decrypted
sequence-number block (`msg.c:289-291`, `msg.c:361-363`): zeros when the
unwrapping context is the acceptor, 0xFF when it is the initiator. -/
def unwrapRoleBytes (acceptor : Bool) : List Nat :=
  if acceptor then [0x00, 0x00, 0x00, 0x00] else [0xFF, 0xFF, 0xFF, 0xFF]

/-- The pad-verification loop (`msg.c:303-305`, `msg.c:373-375`): the last
`padlen` bytes must all equal `padlen`. -/
def padOk (data : List Nat) (padlen : Nat) : Bool :=
  (data.drop (data.length - padlen)).all (fun b => b == padlen)

/-- Result of `gss_krb5_wrap`: major status, updated context, and the
encapsulated output token (empty when not produced). -/
structure WrapResult where
  majStat : Nat
  k5 : Krb5Ctx
  token : List Nat
  deriving Repr, DecidableEq

/-- `gss_krb5_wrap`, `SHISHI_DES_CBC_MD5` arm (`msg.c:51-129`). -/
def desWrap (o : ShishiCrypto) (k5 : Krb5Ctx) (input : List Nat) : WrapResult :=
  let padlength := 8 - input.length % 8
  let header : List Nat := [0x02, 0x01, 0x00, 0x00, 0xFF, 0xFF, 0xFF, 0xFF]
  match o.randomize with
  | none => ⟨GSS_S_FAILURE, k5, []⟩
  | some confounder =>
      match o.checksum 0 SHISHI_RSA_MD5_DES_GSS
          (header ++ confounder ++ input ++ List.replicate padlength padlength) with
      | none => ⟨GSS_S_FAILURE, k5, []⟩
      | some cksum =>
          if cksum.length ≠ 8 then ⟨GSS_S_FAILURE, k5, []⟩
          else
            let seqno := wrapSeqnoBytes k5.initseqnr k5.acceptor
            match o.encryptIv SHISHI_DES_CBC_NONE cksum seqno with
            | none => ⟨GSS_S_FAILURE, k5, []⟩
            | some eseqno =>
                if eseqno.length ≠ 8 then ⟨GSS_S_FAILURE, k5, []⟩
                else
                  let data := header ++ eseqno ++ cksum ++ confounder ++ input ++
                    List.replicate padlength padlength
                  ⟨GSS_S_COMPLETE, { k5 with initseqnr := k5.initseqnr + 1 },
                    gss_encapsulate_token data krb5Oid⟩

/-- `gss_krb5_wrap`, `SHISHI_DES3_CBC_HMAC_SHA1_KD` arm (`msg.c:131-192`).
The IV for the sequence-number encryption is the first 8 bytes of the 20-byte
checksum (`shishi_encrypt_iv_etype (..., data.value + 16, 8, ...)`). -/
def des3Wrap (o : ShishiCrypto) (k5 : Krb5Ctx) (input : List Nat) : WrapResult :=
  let padlength := 8 - input.length % 8
  let header : List Nat := [0x02, 0x01, 0x04, 0x00, 0xFF, 0xFF, 0xFF, 0xFF]
  match o.randomize with
  | none => ⟨GSS_S_FAILURE, k5, []⟩
  | some confounder =>
      match o.checksum SHISHI_KEYUSAGE_GSS_R2 SHISHI_HMAC_SHA1_DES3_KD
          (header ++ confounder ++ input ++ List.replicate padlength padlength) with
      | none => ⟨GSS_S_FAILURE, k5, []⟩
      | some cksum =>
          if cksum.length ≠ 20 then ⟨GSS_S_FAILURE, k5, []⟩
          else
            let seqno := wrapSeqnoBytes k5.initseqnr k5.acceptor
            match o.encryptIv SHISHI_DES3_CBC_NONE (cksum.take 8) seqno with
            | none => ⟨GSS_S_FAILURE, k5, []⟩
            | some eseqno =>
                if eseqno.length ≠ 8 then ⟨GSS_S_FAILURE, k5, []⟩
                else
                  let data := header ++ eseqno ++ cksum ++ confounder ++ input ++
                    List.replicate padlength padlength
                  ⟨GSS_S_COMPLETE, { k5 with initseqnr := k5.initseqnr + 1 },
                    gss_encapsulate_token data krb5Oid⟩

/-- `gss_krb5_wrap` (`msg.c:33-199`): dispatch on the session key's type;
any other key type returns `GSS_S_FAILURE` untouched. -/
def gss_krb5_wrap (o : ShishiCrypto) (k5 : Krb5Ctx) (input : List Nat) :
    WrapResult :=
  if k5.keyType = SHISHI_DES_CBC_MD5 then desWrap o k5 input
  else if k5.keyType = SHISHI_DES3_CBC_HMAC_SHA1_KD then des3Wrap o k5 input
  else ⟨GSS_S_FAILURE, k5, []⟩

/-- The signing-algorithm field read at `msg.c:228-229`: bytes 2-3 of the
decapsulated data, little-endian. -/
def sgnAlgOf (data : List Nat) : Nat :=
  (data.getD 2 0 &&& 0xFF) ||| ((data.getD 3 0 <<< 8) &&& 0xFF00)

/-- The sealing-algorithm field read at `msg.c:231-232`: bytes 4-5 of the
decapsulated data, little-endian. -/
def sealAlgOf (data : List Nat) : Nat :=
  (data.getD 4 0 &&& 0xFF) ||| ((data.getD 5 0 <<< 8) &&& 0xFF00)

/-- The decrypted sequence-number block of the DES arm (`msg.c:278-287`):
raw-CBC decryption of bytes 8-16 with the checksum field (bytes 16-24) as
IV. -/
def desSeqBlock (o : ShishiCrypto) (data : List Nat) : Option (List Nat) :=
  o.decryptIv SHISHI_DES_CBC_NONE ((data.drop 16).take 8) ((data.drop 8).take 8)

/-- The decrypted sequence-number block of the 3DES arm (`msg.c:350-358`):
the IV is the first 8 bytes of the 20-byte checksum field. -/
def des3SeqBlock (o : ShishiCrypto) (data : List Nat) : Option (List Nat) :=
  o.decryptIv SHISHI_DES3_CBC_NONE (((data.drop 16).take 20).take 8)
    ((data.drop 8).take 8)

/-- The pad length read by `gss_krb5_unwrap` (`msg.c:300`, `msg.c:370`): the
last byte of the decapsulated data. -/
def padLenOf (data : List Nat) : Nat := (data.getLast?).getD 0

/-- The region the DES arm of unwrap checksums (`msg.c:307-316`): header and
confounder rewritten next to the payload, i.e. bytes 0-8, 24-32, then the
rest from offset 32. -/
def desCksumRegion (data : List Nat) : List Nat :=
  data.take 8 ++ (data.drop 24).take 8 ++ data.drop 32

/-- The region the 3DES arm of unwrap checksums (`msg.c:377-385`): the header
rewritten next to the confounder, i.e. bytes 0-8 then the rest from
offset 36. -/
def des3CksumRegion (data : List Nat) : List Nat :=
  data.take 8 ++ data.drop 36

/-- Result of `gss_krb5_unwrap`: major status, updated context, the value the
code stores through `conf_state` (`none` while the write at `msg.c:234-235`
has not yet happened), and the recovered message. -/
structure UnwrapResult where
  majStat : Nat
  k5 : Krb5Ctx
  confState : Option Bool
  msg : Option (List Nat)
  deriving Repr, DecidableEq

/-- `gss_krb5_unwrap`, DES-MD5 arm (`msg.c:244-333`). -/
def desUnwrap (o : ShishiCrypto) (k5 : Krb5Ctx) (data : List Nat)
    (conf : Option Bool) : UnwrapResult :=
  if data.length < 5 * 8 then ⟨GSS_S_BAD_MIC, k5, conf, none⟩
  else
    let cksum := (data.drop 16).take 8
    match desSeqBlock o data with
    | none => ⟨GSS_S_FAILURE, k5, conf, none⟩
    | some seqno =>
        if seqno.length ≠ 8 then ⟨GSS_S_BAD_MIC, k5, conf, none⟩
        else if seqno.drop 4 ≠ unwrapRoleBytes k5.acceptor then
          ⟨GSS_S_BAD_MIC, k5, conf, none⟩
        else if C2I seqno ≠ k5.acceptseqnr then ⟨GSS_S_BAD_MIC, k5, conf, none⟩
        else
          let k5incr := { k5 with acceptseqnr := k5.acceptseqnr + 1 }
          let padlen := padLenOf data
          if padlen > 8 then ⟨GSS_S_BAD_MIC, k5incr, conf, none⟩
          else if ¬ padOk data padlen then ⟨GSS_S_BAD_MIC, k5incr, conf, none⟩
          else
            match o.checksum 0 SHISHI_RSA_MD5_DES_GSS (desCksumRegion data) with
            | none => ⟨GSS_S_FAILURE, k5incr, conf, none⟩
            | some t =>
                if t.length ≠ 8 then ⟨GSS_S_FAILURE, k5incr, conf, none⟩
                else if t ≠ cksum then ⟨GSS_S_BAD_MIC, k5incr, conf, none⟩
                else ⟨GSS_S_COMPLETE, k5incr, conf,
                  some ((data.drop 32).take (data.length - 4 * 8 - padlen))⟩

/-- `gss_krb5_unwrap`, 3DES arm (`msg.c:335-403`).  The recomputed checksum
covers the header rewritten next to the confounder (`data.value + 28`), i.e.
`header ++ data.drop 36`. -/
def des3Unwrap (o : ShishiCrypto) (k5 : Krb5Ctx) (data : List Nat)
    (conf : Option Bool) : UnwrapResult :=
  if data.length < 8 + 8 + 20 + 8 + 8 then ⟨GSS_S_BAD_MIC, k5, conf, none⟩
  else
    let cksum := (data.drop 16).take 20
    match des3SeqBlock o data with
    | none => ⟨GSS_S_FAILURE, k5, conf, none⟩
    | some p =>
        if p.length ≠ 8 then ⟨GSS_S_FAILURE, k5, conf, none⟩
        else if p.drop 4 ≠ unwrapRoleBytes k5.acceptor then
          ⟨GSS_S_BAD_MIC, k5, conf, none⟩
        else if C2I p ≠ k5.acceptseqnr then ⟨GSS_S_BAD_MIC, k5, conf, none⟩
        else
          let k5incr := { k5 with acceptseqnr := k5.acceptseqnr + 1 }
          let padlen := padLenOf data
          if padlen > 8 then ⟨GSS_S_BAD_MIC, k5incr, conf, none⟩
          else if ¬ padOk data padlen then ⟨GSS_S_BAD_MIC, k5incr, conf, none⟩
          else
            match o.checksum SHISHI_KEYUSAGE_GSS_R2 SHISHI_HMAC_SHA1_DES3_KD
                (des3CksumRegion data) with
            | none => ⟨GSS_S_FAILURE, k5incr, conf, none⟩
            | some t =>
                if t.length ≠ 20 then ⟨GSS_S_FAILURE, k5incr, conf, none⟩
                else if t ≠ cksum then ⟨GSS_S_BAD_MIC, k5incr, conf, none⟩
                else ⟨GSS_S_COMPLETE, k5incr, conf,
                  some ((data.drop 44).take (data.length - 20 - 8 - 8 - 8 - padlen))⟩

/-- `gss_krb5_unwrap` (`msg.c:201-410`).  Note `msg.c:235` stores
`seal_alg == 0xFFFF` through `conf_state`. -/
def gss_krb5_unwrap (o : ShishiCrypto) (k5 : Krb5Ctx) (input : List Nat) :
    UnwrapResult :=
  match gss_decapsulate_token input with
  | none => ⟨GSS_S_BAD_MIC, k5, none, none⟩
  | some (oid, data) =>
      if oid ≠ krb5Oid then ⟨GSS_S_BAD_MIC, k5, none, none⟩
      else if data.length < 8 then ⟨GSS_S_BAD_MIC, k5, none, none⟩
      else if data.take 2 ≠ [0x02, 0x01] then ⟨GSS_S_BAD_MIC, k5, none, none⟩
      else
        let sgn_alg := sgnAlgOf data
        let seal_alg := sealAlgOf data
        let conf : Option Bool := some (seal_alg == 0xFFFF)
        if (data.drop 6).take 2 ≠ [0xFF, 0xFF] then ⟨GSS_S_BAD_MIC, k5, conf, none⟩
        else if sgn_alg = 0 then desUnwrap o k5 data conf
        else if sgn_alg = 4 then des3Unwrap o k5 data conf
        else ⟨GSS_S_FAILURE, k5, conf, none⟩

/-! ## Context handles

The generic shell (`gss_ctx_id_desc` in `lib/internal.h`): the mechanism OID
plus the mechanism-private state; `krb5 = none` models a null `krb5` pointer. -/

structure GssCtx where
  mech : Oid
  krb5 : Option Krb5Ctx
  deriving Repr, DecidableEq

/-- A freshly `xcalloc`ed Kerberos private context (all fields zero). -/
def freshKrb5Ctx : Krb5Ctx :=
  { keyType := 0, acceptor := false, flags := 0, initseqnr := 0,
    acceptseqnr := 0, repdone := false }

/-! ## Kerberos V5 context establishment (`lib/krb5/context.c`) -/

/-- The Shishi side of `gss_krb5_init_sec_context` (§6 capability): each
`Bool` is the `SHISHI_OK`-ness of the corresponding call, `apreqDer` the
DER-serialized AP-REQ, `repSeqnr` the AP-REP encrypted part's optional
sequence number. -/
structure Krb5InitOracle where
  shishiInitOk : Bool
  nameOk : Bool
  tktOk : Bool
  apOk : Bool
  keyType : Nat
  apReqBuildOk : Bool
  setCksumOk : Bool
  addAuthOk : Bool
  apreqDer : Option (List Nat)
  apRepSetOk : Bool
  apRepVerifyOk : Bool
  repSeqnr : Option Nat

/-- What a mechanism init returns: major status, the context handle as left
in `*context_handle`, and the output token. -/
structure MechInitResult where
  majStat : Nat
  ctx : Option GssCtx
  outTok : List Nat
  deriving Repr, DecidableEq

/-- `gss_krb5_init_sec_context` (`lib/krb5/context.c:29-214`).  Out-parameters
are modelled as values, so the null-pointer guards on `context_handle` and
`output_token` (lines 51-55) fall away.  The overall result is `none` when
the call dereferences the null `krb5` field of a shell context
(`(*context_handle)->krb5->repdone`, line 177) — a crash, not a return.
On the first call (`*context_handle == GSS_C_NO_CONTEXT`) the fresh context
is stored in `*context_handle` (line 71) before any fallible step, so error
returns leave it there; `flags` is recorded at line 129 and the session key
at line 138. -/
def gss_krb5_init_sec_context (o : Krb5InitOracle) (credPresent : Bool)
    (ctxIn : Option GssCtx) (targetIsPrincipal : Bool) (reqFlags : Nat)
    (inputToken : List Nat) : Option MechInitResult :=
  match ctxIn with
  | none =>
      let ctx0 : GssCtx := ⟨krb5Oid, some freshKrb5Ctx⟩
      if ¬credPresent ∧ ¬o.shishiInitOk then
        some ⟨GSS_S_FAILURE, some ctx0, []⟩
      else if ¬o.nameOk then some ⟨GSS_S_FAILURE, some ctx0, []⟩
      else if ¬credPresent ∧ ¬o.tktOk then some ⟨GSS_S_FAILURE, some ctx0, []⟩
      else
        let ctx1 : GssCtx := ⟨krb5Oid, some { freshKrb5Ctx with flags := reqFlags }⟩
        if ¬o.apOk then some ⟨GSS_S_FAILURE, some ctx1, []⟩
        else
          let ctx2 : GssCtx :=
            ⟨krb5Oid, some { freshKrb5Ctx with flags := reqFlags, keyType := o.keyType }⟩
          if ¬o.apReqBuildOk then some ⟨GSS_S_FAILURE, some ctx2, []⟩
          else if ¬o.setCksumOk then some ⟨GSS_S_FAILURE, some ctx2, []⟩
          else if ¬o.addAuthOk then some ⟨GSS_S_FAILURE, some ctx2, []⟩
          else
            match o.apreqDer with
            | none => some ⟨GSS_S_FAILURE, some ctx2, []⟩
            | some der =>
                let outTok := gss_encapsulate_token ([0x01, 0x00] ++ der) krb5Oid
                if reqFlags &&& GSS_C_MUTUAL_FLAG ≠ 0 then
                  some ⟨GSS_S_CONTINUE_NEEDED, some ctx2, outTok⟩
                else
                  some ⟨GSS_S_COMPLETE, some ctx2, outTok⟩
  | some c =>
      match c.krb5 with
      | none => none
      | some k5 =>
          if ¬k5.repdone then
            match gss_decapsulate_token inputToken with
            | none => some ⟨GSS_S_BAD_MIC, some c, []⟩
            | some (oid, data) =>
                if oid ≠ krb5Oid then some ⟨GSS_S_BAD_MIC, some c, []⟩
                else if data.take 2 ≠ [0x02, 0x00] then
                  some ⟨GSS_S_BAD_MIC, some c, []⟩
                else if ¬o.apRepSetOk then some ⟨GSS_S_FAILURE, some c, []⟩
                else if ¬o.apRepVerifyOk then some ⟨GSS_S_FAILURE, some c, []⟩
                else
                  let k5done :=
                    { k5 with acceptseqnr := o.repSeqnr.getD 0, repdone := true }
                  some ⟨GSS_S_COMPLETE, some { c with krb5 := some k5done }, []⟩
          else
            some ⟨GSS_S_FAILURE, some c, []⟩

/-- The Shishi side of `gss_krb5_accept_sec_context`. -/
structure Krb5AcceptOracle where
  apOk : Bool
  reqDerSetOk : Bool
  reqProcessOk : Bool
  tktKeyType : Nat
  mutualRequired : Bool
  apRepBuildOk : Bool
  apRepDer : Option (List Nat)
  cnameOk : Bool

/-- What a mechanism accept returns. -/
structure MechAcceptResult where
  majStat : Nat
  ctx : Option GssCtx
  outTok : List Nat
  retFlags : Nat
  deriving Repr, DecidableEq

/-- `gss_krb5_accept_sec_context` (`lib/krb5/context.c:216-360`).  On the
first call the acceptor context is allocated and stored in
`*context_handle` (line 272) before the token is decapsulated or processed,
so error returns after that point leave the handle set.  A call with an
existing context only prints a diagnostic and falls through to
`return GSS_S_COMPLETE`. -/
def gss_krb5_accept_sec_context (o : Krb5AcceptOracle) (credPresent : Bool)
    (chanBindingsPresent : Bool) (ctxIn : Option GssCtx)
    (inputToken : List Nat) (srcNameRequested : Bool) : MechAcceptResult :=
  if ¬credPresent then ⟨GSS_S_NO_CRED, ctxIn, [], 0⟩
  else if chanBindingsPresent then ⟨GSS_S_BAD_BINDINGS, ctxIn, [], 0⟩
  else
    match ctxIn with
    | some c => ⟨GSS_S_COMPLETE, some c, [], 0⟩
    | none =>
        let cx : GssCtx := ⟨krb5Oid, some { freshKrb5Ctx with acceptor := true }⟩
        if ¬o.apOk then ⟨GSS_S_FAILURE, some cx, [], 0⟩
        else
          match gss_decapsulate_token inputToken with
          | none => ⟨GSS_S_BAD_MIC, some cx, [], 0⟩
          | some (oid, data) =>
              if oid ≠ krb5Oid then ⟨GSS_S_BAD_MIC, some cx, [], 0⟩
              else if data.take 2 ≠ [0x01, 0x00] then ⟨GSS_S_BAD_MIC, some cx, [], 0⟩
              else if ¬o.reqDerSetOk then ⟨GSS_S_FAILURE, some cx, [], 0⟩
              else if ¬o.reqProcessOk then ⟨GSS_S_FAILURE, some cx, [], 0⟩
              else
                let k5tkt : Krb5Ctx :=
                  { freshKrb5Ctx with acceptor := true, keyType := o.tktKeyType }
                let cx2 : GssCtx := ⟨krb5Oid, some k5tkt⟩
                if o.mutualRequired then
                  if ¬o.apRepBuildOk then ⟨GSS_S_FAILURE, some cx2, [], 0⟩
                  else
                    match o.apRepDer with
                    | none => ⟨GSS_S_FAILURE, some cx2, [], 0⟩
                    | some der =>
                        let outTok :=
                          gss_encapsulate_token_prefix der [0x02, 0x00] krb5Oid
                        if srcNameRequested ∧ ¬o.cnameOk then
                          ⟨GSS_S_FAILURE, some cx2, outTok, GSS_C_MUTUAL_FLAG⟩
                        else
                          ⟨GSS_S_COMPLETE, some cx2, outTok, GSS_C_MUTUAL_FLAG⟩
                else
                  if srcNameRequested ∧ ¬o.cnameOk then
                    ⟨GSS_S_FAILURE, some cx2, [], 0⟩
                  else
                    ⟨GSS_S_COMPLETE, some cx2, [], 0⟩

/-! ## Generic dispatch surface (`lib/context.c`)

The mechanism registry (`lib/meta.c`) is not under `src/`; modelled from the
spec §4.3: a build-time table whose only registered mechanism here is
Kerberos V5; a null OID selects the first registered mechanism (the default),
`find_mechanism_no_default` requires an exact match. -/

/-- Modelled from the spec: `_gss_find_mech` (§4.3). -/
def _gss_find_mech (mt : Option Oid) : Option Oid :=
  match mt with
  | none => some krb5Oid
  | some o => if o = krb5Oid then some krb5Oid else none

/-- Modelled from the spec: `_gss_find_mech_no_default` (§4.3). -/
def _gss_find_mech_no_default (o : Oid) : Option Oid :=
  if o = krb5Oid then some krb5Oid else none

/-- Result of the generic `gss_init_sec_context`. -/
structure GenInitResult where
  majStat : Nat
  ctx : Option GssCtx
  outTok : List Nat
  deriving Repr, DecidableEq

/-- The generic `gss_init_sec_context` (`lib/context.c:343-430`),
parameterized by the dispatched mechanism init (`mech->init_sec_context`),
which receives the value of `*context_handle` at the call and yields `none`
on a crash.  `ctxPresent`/`outPresent` model the null-pointer guards on the
`context_handle` and `output_token` arguments.  When `*context_handle` is
`GSS_C_NO_CONTEXT` a fresh shell tagged with the mechanism's OID is allocated
(line 400-408, `freecontext = 1`); if the mechanism then returns an error the
shell is freed and `*context_handle` reset to `GSS_C_NO_CONTEXT`
(lines 423-427). -/
def gss_init_sec_context_gen (mechInit : Option GssCtx → Option MechInitResult)
    (mechType : Option Oid) (ctxIn : Option GssCtx)
    (ctxPresent outPresent : Bool) : Option GenInitResult :=
  if ¬ctxPresent then
    some ⟨GSS_S_NO_CONTEXT ||| GSS_S_CALL_INACCESSIBLE_READ, ctxIn, []⟩
  else if ¬outPresent then
    some ⟨GSS_S_FAILURE ||| GSS_S_CALL_BAD_STRUCTURE, ctxIn, []⟩
  else
    let mech? := match ctxIn with
      | none => _gss_find_mech mechType
      | some c => _gss_find_mech (some c.mech)
    match mech? with
    | none => some ⟨GSS_S_BAD_MECH, ctxIn, []⟩
    | some mOid =>
        match ctxIn with
        | none =>
            let shell : GssCtx := ⟨mOid, none⟩
            match mechInit (some shell) with
            | none => none
            | some r =>
                if GSS_ERROR r.majStat then some ⟨r.majStat, none, r.outTok⟩
                else some ⟨r.majStat, r.ctx, r.outTok⟩
        | some c =>
            match mechInit (some c) with
            | none => none
            | some r => some ⟨r.majStat, r.ctx, r.outTok⟩

/-- Result of the generic `gss_accept_sec_context`. -/
structure GenAcceptResult where
  majStat : Nat
  ctx : Option GssCtx
  outTok : List Nat
  retFlags : Nat
  deriving Repr, DecidableEq

/-- The generic `gss_accept_sec_context` (`lib/context.c:684-750`),
parameterized by the dispatched mechanism accept.  With
`*context_handle == GSS_C_NO_CONTEXT` the mechanism is discovered by
decapsulating the input token (`_gss_decapsulate_token`, lines 713-721; any
failure is `GSS_S_DEFECTIVE_TOKEN`) and looked up without default
(line 726).  Unlike init, the mechanism's result is returned as-is: there is
no cleanup of a context the mechanism allocated (line 740). -/
def gss_accept_sec_context_gen
    (mechAccept : Option GssCtx → MechAcceptResult)
    (ctxIn : Option GssCtx) (inputToken : List Nat)
    (ctxPresent : Bool) : GenAcceptResult :=
  if ¬ctxPresent then
    ⟨GSS_S_NO_CONTEXT ||| GSS_S_CALL_INACCESSIBLE_READ, ctxIn, [], 0⟩
  else
    match ctxIn with
    | none =>
        match gss_decapsulate_token inputToken with
        | none => ⟨GSS_S_DEFECTIVE_TOKEN, none, [], 0⟩
        | some (oid, _) =>
            match _gss_find_mech_no_default oid with
            | none => ⟨GSS_S_BAD_MECH, none, [], 0⟩
            | some _ =>
                let r := mechAccept none
                ⟨r.majStat, r.ctx, r.outTok, r.retFlags⟩
    | some c =>
        match _gss_find_mech_no_default c.mech with
        | none => ⟨GSS_S_BAD_MECH, some c, [], 0⟩
        | some _ =>
            let r := mechAccept (some c)
            ⟨r.majStat, r.ctx, r.outTok, r.retFlags⟩

/-- The generic init dispatched to the Kerberos V5 mechanism — the
composition actually linked into the library. -/
def gss_init_sec_context_krb5 (o : Krb5InitOracle) (credPresent : Bool)
    (mechType : Option Oid) (ctxIn : Option GssCtx) (targetIsPrincipal : Bool)
    (reqFlags : Nat) (inputToken : List Nat) : Option GenInitResult :=
  gss_init_sec_context_gen
    (fun cx => gss_krb5_init_sec_context o credPresent cx targetIsPrincipal
      reqFlags inputToken)
    mechType ctxIn true true

/-- The generic accept dispatched to the Kerberos V5 mechanism. -/
def gss_accept_sec_context_krb5 (o : Krb5AcceptOracle) (credPresent : Bool)
    (chanBindingsPresent : Bool) (ctxIn : Option GssCtx)
    (inputToken : List Nat) (srcNameRequested : Bool) : GenAcceptResult :=
  gss_accept_sec_context_gen
    (fun cx => gss_krb5_accept_sec_context o credPresent chanBindingsPresent
      cx inputToken srcNameRequested)
    ctxIn inputToken true

/-! ## Iterated wrapping

State of a context after a sequence of `gss_krb5_wrap` calls (call `k` uses
oracle `os k` on message `ins k`); used to state the sequence-monotonicity
invariant. -/

def wrapIter (os : Nat → ShishiCrypto) (ins : Nat → List Nat) (k5 : Krb5Ctx) :
    Nat → Krb5Ctx
  | 0 => k5
  | n + 1 => (gss_krb5_wrap (os n) (wrapIter os ins k5 n) (ins n)).k5

/-! ## Concrete test vectors -/

/-- A DES wrap-token body: plaintext sealing field 0xFFFF, sequence number 0,
empty message (8 pad bytes of 8). -/
def desTestData : List Nat :=
  [0x02, 0x01, 0x00, 0x00, 0xFF, 0xFF, 0xFF, 0xFF] ++ [9, 9, 9, 9, 9, 9, 9, 9] ++
  [1, 2, 3, 4, 5, 6, 7, 8] ++ [7, 7, 7, 7, 7, 7, 7, 7] ++ List.replicate 8 8

/-- `desTestData` encapsulated under the Kerberos OID. -/
def desTestTok : List Nat := gss_encapsulate_token desTestData krb5Oid

/-- Like `desTestData` but with a corrupt pad (last byte 9 > 8). -/
def badPadData : List Nat :=
  [0x02, 0x01, 0x00, 0x00, 0xFF, 0xFF, 0xFF, 0xFF] ++ [9, 9, 9, 9, 9, 9, 9, 9] ++
  [1, 2, 3, 4, 5, 6, 7, 8] ++ [7, 7, 7, 7, 7, 7, 7, 7] ++
  [8, 8, 8, 8, 8, 8, 8, 9]

/-- `badPadData` encapsulated under the Kerberos OID. -/
def badPadTok : List Nat := gss_encapsulate_token badPadData krb5Oid

/-- A crypto oracle consistent with `desTestData`: the sequence block
decrypts to eight zero bytes and the checksum of any region is the token's
checksum field. -/
def desTestOracle : ShishiCrypto :=
  { randomize := some [7, 7, 7, 7, 7, 7, 7, 7],
    checksum := fun _ _ _ => some [1, 2, 3, 4, 5, 6, 7, 8],
    encryptIv := fun _ _ _ => some [9, 9, 9, 9, 9, 9, 9, 9],
    decryptIv := fun _ _ _ => some [0, 0, 0, 0, 0, 0, 0, 0] }

/-- An acceptor-side DES context with both sequence counters at 0. -/
def desTestCtx : Krb5Ctx :=
  { keyType := SHISHI_DES_CBC_MD5, acceptor := true, flags := 0,
    initseqnr := 0, acceptseqnr := 0, repdone := false }

/-- An initiator-side DES context with both sequence counters at 0. -/
def initTestCtx : Krb5Ctx :=
  { keyType := SHISHI_DES_CBC_MD5, acceptor := false, flags := 0,
    initseqnr := 0, acceptseqnr := 0, repdone := false }

/-- A truncated envelope: tag byte and a length that overruns the input. -/
def truncTok : List Nat := [0x60, 0x05]

/-- A well-formed envelope under the Kerberos OID whose inner prefix is the
AP-REP tag rather than the AP-REQ tag. -/
def apRepPrefixTok : List Nat := gss_encapsulate_token [0x02, 0x00] krb5Oid

/-- An acceptor-side Shishi oracle whose `shishi_ap` call succeeds. -/
def acceptTestOracle : Krb5AcceptOracle :=
  { apOk := true, reqDerSetOk := true, reqProcessOk := true, tktKeyType := 3,
    mutualRequired := false, apRepBuildOk := true, apRepDer := none,
    cnameOk := true }

/-- An initiator-side Shishi oracle on which every step succeeds. -/
def initTestOracle : Krb5InitOracle :=
  { shishiInitOk := true, nameOk := true, tktOk := true, apOk := true,
    keyType := 3, apReqBuildOk := true, setCksumOk := true, addAuthOk := true,
    apreqDer := some [0xAA, 0xBB, 0xCC], apRepSetOk := true,
    apRepVerifyOk := true, repSeqnr := none }

/-- A mechanism init that always fails, leaving the handle as received. -/
def failingMechInit : Option GssCtx → Option MechInitResult :=
  fun cx => some ⟨GSS_S_FAILURE, cx, []⟩

/-- A pre-existing context shell holding Kerberos private state. -/
def preexistingCtx : GssCtx := ⟨krb5Oid, some freshKrb5Ctx⟩

/-! ## Helper lemmas -/

/-- `gss_krb5_wrap` either fails leaving the context untouched or completes
with `initseqnr` incremented by exactly one. -/
theorem wrap_cases (o : ShishiCrypto) (k5 : Krb5Ctx) (input : List Nat) :
    ((gss_krb5_wrap o k5 input).majStat = GSS_S_FAILURE ∧
      (gss_krb5_wrap o k5 input).k5 = k5) ∨
    ((gss_krb5_wrap o k5 input).majStat = GSS_S_COMPLETE ∧
      (gss_krb5_wrap o k5 input).k5 = { k5 with initseqnr := k5.initseqnr + 1 }) := by
  simp only [gss_krb5_wrap, desWrap, des3Wrap]
  repeat' split
  all_goals first
    | exact Or.inl ⟨rfl, rfl⟩
    | exact Or.inr ⟨rfl, rfl⟩

/-- Inversion of a completed DES-arm unwrap: `acceptseqnr` advanced by one,
`conf_state` as passed in, and the decrypted sequence block matched both the
expected direction bytes and the current `acceptseqnr`. -/
theorem desUnwrap_complete (o : ShishiCrypto) (k5 : Krb5Ctx) (data : List Nat)
    (conf : Option Bool) (r : UnwrapResult) (hr : desUnwrap o k5 data conf = r)
    (hms : r.majStat = GSS_S_COMPLETE) :
    r.k5 = { k5 with acceptseqnr := k5.acceptseqnr + 1 } ∧ r.confState = conf ∧
    ∃ seq, desSeqBlock o data = some seq ∧ C2I seq = k5.acceptseqnr ∧
      seq.drop 4 = unwrapRoleBytes k5.acceptor := by
  simp only [desUnwrap] at hr
  repeat' split at hr
  all_goals subst hr
  all_goals first
    | (refine ⟨rfl, rfl, ?_⟩; simp_all)
    | simp [GSS_S_BAD_MIC, GSS_S_FAILURE, GSS_S_COMPLETE] at hms

/-- Inversion of a completed 3DES-arm unwrap. -/
theorem des3Unwrap_complete (o : ShishiCrypto) (k5 : Krb5Ctx) (data : List Nat)
    (conf : Option Bool) (r : UnwrapResult) (hr : des3Unwrap o k5 data conf = r)
    (hms : r.majStat = GSS_S_COMPLETE) :
    r.k5 = { k5 with acceptseqnr := k5.acceptseqnr + 1 } ∧ r.confState = conf ∧
    ∃ seq, des3SeqBlock o data = some seq ∧ C2I seq = k5.acceptseqnr ∧
      seq.drop 4 = unwrapRoleBytes k5.acceptor := by
  simp only [des3Unwrap] at hr
  repeat' split at hr
  all_goals subst hr
  all_goals first
    | (refine ⟨rfl, rfl, ?_⟩; simp_all)
    | simp [GSS_S_BAD_MIC, GSS_S_FAILURE, GSS_S_COMPLETE] at hms

/-- Inversion of a completed `gss_krb5_unwrap`: the context's `acceptseqnr`
advanced by exactly one, `conf_state` reports `seal_alg == 0xFFFF`, and the
decrypted sequence block matched both the direction bytes and the current
`acceptseqnr`. -/
theorem unwrap_complete_inv (o : ShishiCrypto) (k5 : Krb5Ctx) (input : List Nat)
    (r : UnwrapResult) (hr : gss_krb5_unwrap o k5 input = r)
    (hms : r.majStat = GSS_S_COMPLETE) :
    r.k5 = { k5 with acceptseqnr := k5.acceptseqnr + 1 } ∧
    ∃ oid data seq, gss_decapsulate_token input = some (oid, data) ∧
      r.confState = some (sealAlgOf data == 0xFFFF) ∧
      (desSeqBlock o data = some seq ∨ des3SeqBlock o data = some seq) ∧
      C2I seq = k5.acceptseqnr ∧
      seq.drop 4 = unwrapRoleBytes k5.acceptor := by
  simp only [gss_krb5_unwrap] at hr
  repeat' split at hr
  all_goals try (subst hr; simp [GSS_S_BAD_MIC, GSS_S_FAILURE, GSS_S_COMPLETE] at hms; done)
  · obtain ⟨hk, hc, seq, hs, hC, hrole⟩ := desUnwrap_complete _ _ _ _ _ hr hms
    exact ⟨hk, _, _, seq, by assumption, hc, Or.inl hs, hC, hrole⟩
  · obtain ⟨hk, hc, seq, hs, hC, hrole⟩ := des3Unwrap_complete _ _ _ _ _ hr hms
    exact ⟨hk, _, _, seq, by assumption, hc, Or.inr hs, hC, hrole⟩

/-! ## Claims -/

/-- C1: `gss_krb5_unwrap` stores `seal_alg == 0xFFFF` through `conf_state`
(`msg.c:235`), so a successfully unwrapped plaintext token — sealing field
0xFFFF, exactly what `gss_krb5_wrap` always emits — is reported with
`conf_state = true`, the opposite of the specified
`conf_state := (sealing != 0xFFFF)`.  Evaluation at the failing input: a
plaintext DES token unwraps with `GSS_S_COMPLETE` and `conf_state = true`. -/
theorem C1_conf_state_inverted_at_plaintext_token :
    sealAlgOf desTestData = 0xFFFF ∧
    (gss_krb5_unwrap desTestOracle desTestCtx desTestTok).majStat = GSS_S_COMPLETE ∧
    (gss_krb5_unwrap desTestOracle desTestCtx desTestTok).confState = some true :=
  ⟨rfl, rfl, rfl⟩

/-- C9: `gss_add_oid_set_member` is idempotent: adding a valid OID that is
already a member returns `GSS_S_COMPLETE` leaving the set unchanged, adding
twice equals adding once, every add of a valid OID succeeds, and afterwards
`gss_test_oid_set_member` reports it present. -/
theorem C9_add_oid_set_member_idempotent (s : List Oid) (x : Oid)
    (hx : x.length ≠ 0) :
    (gss_test_oid_set_member (some x) s = true →
      gss_add_oid_set_member (some x) s = ⟨GSS_S_COMPLETE, s⟩) ∧
    (gss_add_oid_set_member (some x) s).majStat = GSS_S_COMPLETE ∧
    gss_add_oid_set_member (some x) (gss_add_oid_set_member (some x) s).set =
      ⟨GSS_S_COMPLETE, (gss_add_oid_set_member (some x) s).set⟩ ∧
    gss_test_oid_set_member (some x) (gss_add_oid_set_member (some x) s).set = true := by
  unfold gss_add_oid_set_member gss_test_oid_set_member
  by_cases hm : s.any (fun cur => cur == x)
  · simp [hx, hm]
  · simp [hx, hm, List.any_append]

/-- C9 witness: adding the Kerberos OID to the empty set. -/
theorem C9_add_oid_set_member_idempotent_witness :
    gss_add_oid_set_member (some krb5Oid)
        (gss_add_oid_set_member (some krb5Oid) []).set =
      ⟨GSS_S_COMPLETE, (gss_add_oid_set_member (some krb5Oid) []).set⟩ ∧
    gss_test_oid_set_member (some krb5Oid)
        (gss_add_oid_set_member (some krb5Oid) []).set = true :=
  ⟨(C9_add_oid_set_member_idempotent [] krb5Oid (by decide)).2.2.1,
   (C9_add_oid_set_member_idempotent [] krb5Oid (by decide)).2.2.2⟩

/-- C8: `initseqnr` is monotonically non-decreasing on every Kerberos
context: a successful `gss_krb5_wrap` increments it by exactly one
(`msg.c:127`, `msg.c:190`), a failed wrap leaves it unchanged, and after `n`
successful wraps on a freshly established context (`initseqnr = 0`) it
equals `n`. -/
theorem C8_initseqnr_monotone (os : Nat → ShishiCrypto) (ins : Nat → List Nat)
    (k5 : Krb5Ctx) (o : ShishiCrypto) (input : List Nat) (n : Nat)
    (hfresh : k5.initseqnr = 0)
    (hsucc : ∀ k, k < n →
      (gss_krb5_wrap (os k) (wrapIter os ins k5 k) (ins k)).majStat = GSS_S_COMPLETE) :
    ((gss_krb5_wrap o k5 input).majStat = GSS_S_COMPLETE →
      (gss_krb5_wrap o k5 input).k5.initseqnr = k5.initseqnr + 1) ∧
    ((gss_krb5_wrap o k5 input).majStat ≠ GSS_S_COMPLETE →
      (gss_krb5_wrap o k5 input).k5.initseqnr = k5.initseqnr) ∧
    (wrapIter os ins k5 n).initseqnr = n := by
  refine ⟨?_, ?_, ?_⟩
  · intro h
    rcases wrap_cases o k5 input with ⟨hf, _⟩ | ⟨_, hk⟩
    · rw [hf] at h; exact absurd h (by decide)
    · rw [hk]
  · intro h
    rcases wrap_cases o k5 input with ⟨_, hk⟩ | ⟨hc, _⟩
    · rw [hk]
    · exact absurd hc h
  · induction n with
    | zero => simpa [wrapIter] using hfresh
    | succ m ih =>
        have hs := hsucc m (Nat.lt_succ_self m)
        show (gss_krb5_wrap (os m) (wrapIter os ins k5 m) (ins m)).k5.initseqnr = m + 1
        rcases wrap_cases (os m) (wrapIter os ins k5 m) (ins m) with ⟨hf, _⟩ | ⟨_, hk⟩
        · rw [hf] at hs; exact absurd hs (by decide)
        · rw [hk]
          have := ih (fun k hk => hsucc k (Nat.lt_succ_of_lt hk))
          simpa using this

/-- C8 witness: two successful DES wraps on a fresh initiator context leave
`initseqnr = 2`. -/
theorem C8_initseqnr_monotone_witness :
    (wrapIter (fun _ => desTestOracle) (fun _ => []) initTestCtx 2).initseqnr = 2 :=
  (C8_initseqnr_monotone (fun _ => desTestOracle) (fun _ => []) initTestCtx
    desTestOracle [] 2 rfl (by decide)).2.2

/-- C2: the very first call to the generic `gss_init_sec_context`
(`*context_handle = GSS_C_NO_CONTEXT`) never returns at all with the Kerberos
mechanism dispatched: the generic layer pre-allocates a shell whose `krb5`
field is null (`context.c:400-408`), while `gss_krb5_init_sec_context`
treats any non-null `*context_handle` as a continuation call and dereferences
`(*context_handle)->krb5->repdone` (`krb5/context.c:177`) — a null-pointer
crash, so no `GSS_S_COMPLETE`/AP-REQ token is ever produced through the
generic surface. -/
theorem C2_generic_first_init_call_crashes (o : Krb5InitOracle)
    (credPresent targetIsPrincipal : Bool) (reqFlags : Nat)
    (inputToken : List Nat) :
    gss_init_sec_context_krb5 o credPresent (some krb5Oid) none
      targetIsPrincipal reqFlags inputToken = none ∧
    gss_init_sec_context_krb5 o credPresent none none
      targetIsPrincipal reqFlags inputToken = none := by
  constructor <;> rfl

/-- C6: the Kerberos initiator's first context-establishment call that
succeeds (all Shishi steps `SHISHI_OK`, AP-REQ serialized) returns
`GSS_S_CONTINUE_NEEDED` iff `GSS_C_MUTUAL_FLAG` is set in `req_flags`, else
`GSS_S_COMPLETE` (`krb5/context.c:172-175`), emitting the encapsulated
AP-REQ token with inner prefix `0x01 0x00`. -/
theorem C6_krb5_init_first_call_mutual_status (o : Krb5InitOracle)
    (credPresent targetIsPrincipal : Bool) (reqFlags : Nat)
    (inputToken der : List Nat)
    (h1 : o.shishiInitOk = true) (h2 : o.nameOk = true) (h3 : o.tktOk = true)
    (h4 : o.apOk = true) (h5 : o.apReqBuildOk = true) (h6 : o.setCksumOk = true)
    (h7 : o.addAuthOk = true) (h8 : o.apreqDer = some der) :
    gss_krb5_init_sec_context o credPresent none targetIsPrincipal reqFlags
        inputToken =
      some ⟨(if reqFlags &&& GSS_C_MUTUAL_FLAG ≠ 0 then GSS_S_CONTINUE_NEEDED
             else GSS_S_COMPLETE),
            some ⟨krb5Oid, some { freshKrb5Ctx with flags := reqFlags, keyType := o.keyType }⟩,
            gss_encapsulate_token ([0x01, 0x00] ++ der) krb5Oid⟩ ∧
    ∀ r, gss_krb5_init_sec_context o credPresent none targetIsPrincipal
        reqFlags inputToken = some r →
      (r.majStat = GSS_S_CONTINUE_NEEDED ↔ reqFlags &&& GSS_C_MUTUAL_FLAG ≠ 0) := by
  have hmain : gss_krb5_init_sec_context o credPresent none targetIsPrincipal
      reqFlags inputToken =
      some ⟨(if reqFlags &&& GSS_C_MUTUAL_FLAG ≠ 0 then GSS_S_CONTINUE_NEEDED
             else GSS_S_COMPLETE),
            some ⟨krb5Oid, some { freshKrb5Ctx with flags := reqFlags, keyType := o.keyType }⟩,
            gss_encapsulate_token ([0x01, 0x00] ++ der) krb5Oid⟩ := by
    simp only [gss_krb5_init_sec_context, h1, h2, h3, h4, h5, h6, h7, h8]
    by_cases hm : reqFlags &&& GSS_C_MUTUAL_FLAG ≠ 0 <;> simp [hm]
  refine ⟨hmain, ?_⟩
  intro r hr
  rw [hmain] at hr
  obtain rfl := Option.some.inj hr
  by_cases hm : reqFlags &&& GSS_C_MUTUAL_FLAG ≠ 0 <;>
    simp [hm, GSS_S_CONTINUE_NEEDED, GSS_S_COMPLETE]

/-- C6 witness: with mutual requested the status is `GSS_S_CONTINUE_NEEDED`;
without it, `GSS_S_COMPLETE`. -/
theorem C6_krb5_init_first_call_mutual_status_witness :
    (∀ r, gss_krb5_init_sec_context initTestOracle true none true
        GSS_C_MUTUAL_FLAG [] = some r →
      (r.majStat = GSS_S_CONTINUE_NEEDED ↔ GSS_C_MUTUAL_FLAG &&& GSS_C_MUTUAL_FLAG ≠ 0)) ∧
    gss_krb5_init_sec_context initTestOracle true none true 0 [] =
      some ⟨GSS_S_COMPLETE, some ⟨krb5Oid, some ⟨3, false, 0, 0, 0, false⟩⟩,
            gss_encapsulate_token [0x01, 0x00, 0xAA, 0xBB, 0xCC] krb5Oid⟩ :=
  ⟨(C6_krb5_init_first_call_mutual_status initTestOracle true true
      GSS_C_MUTUAL_FLAG [] [0xAA, 0xBB, 0xCC] rfl rfl rfl rfl rfl rfl rfl rfl).2,
   by
    rw [(C6_krb5_init_first_call_mutual_status initTestOracle true true
      0 [] [0xAA, 0xBB, 0xCC] rfl rfl rfl rfl rfl rfl rfl rfl).1]
    decide⟩

/-- C4: the generic `gss_init_sec_context` releases a context it allocated
itself when the mechanism's init fails, resetting the caller's handle to
`GSS_C_NO_CONTEXT` (`context.c:423-427`); when the context pre-existed the
call (`freecontext = 0`) a mechanism error leaves the caller-visible handle
exactly as the mechanism left it — intact. -/
theorem C4_generic_init_cleanup
    (mechInit : Option GssCtx → Option MechInitResult) (mt : Option Oid)
    (c : GssCtx) (r rs : MechInitResult)
    (hfind : _gss_find_mech mt = some krb5Oid)
    (hcall : mechInit (some ⟨krb5Oid, none⟩) = some r)
    (herr : GSS_ERROR r.majStat = true)
    (hfind2 : _gss_find_mech (some c.mech) = some krb5Oid)
    (hcall2 : mechInit (some c) = some rs)
    (herr2 : GSS_ERROR rs.majStat = true)
    (hkeep : rs.ctx = some c) :
    gss_init_sec_context_gen mechInit mt none true true =
      some ⟨r.majStat, none, r.outTok⟩ ∧
    gss_init_sec_context_gen mechInit mt (some c) true true =
      some ⟨rs.majStat, some c, rs.outTok⟩ := by
  constructor
  · simp only [gss_init_sec_context_gen, hfind, hcall]
    simp [herr]
  · simp only [gss_init_sec_context_gen, hfind2, hcall2]
    simp [hkeep]

/-- C4 witness: an always-failing mechanism init; on the creating call the
handle comes back as `GSS_C_NO_CONTEXT`, on a pre-existing context it stays. -/
theorem C4_generic_init_cleanup_witness :
    gss_init_sec_context_gen failingMechInit (some krb5Oid) none true true =
      some ⟨GSS_S_FAILURE, none, []⟩ ∧
    gss_init_sec_context_gen failingMechInit (some krb5Oid)
        (some preexistingCtx) true true =
      some ⟨GSS_S_FAILURE, some preexistingCtx, []⟩ :=
  C4_generic_init_cleanup failingMechInit (some krb5Oid) preexistingCtx
    ⟨GSS_S_FAILURE, some ⟨krb5Oid, none⟩, []⟩
    ⟨GSS_S_FAILURE, some preexistingCtx, []⟩
    (by decide) rfl (by decide) (by decide) rfl (by decide) rfl

/-- C3: `gss_krb5_unwrap` accepts a token only if the leading 4 bytes of the
decrypted sequence-number block, read little-endian (`C2I`), equal the
current `acceptseqnr` (`msg.c:293-295`, `msg.c:364-365`): a successful
unwrap implies the sequence matched and advances `acceptseqnr` by exactly
one; a sequence mismatch (in either cipher arm) returns `GSS_S_BAD_MIC`
leaving the context — in particular `acceptseqnr` — unchanged. -/
theorem C3_unwrap_sequence_enforcement (o : ShishiCrypto) (k5 : Krb5Ctx)
    (input : List Nat) :
    ((gss_krb5_unwrap o k5 input).majStat = GSS_S_COMPLETE →
      (gss_krb5_unwrap o k5 input).k5.acceptseqnr = k5.acceptseqnr + 1 ∧
      ∃ oid data seq, gss_decapsulate_token input = some (oid, data) ∧
        (desSeqBlock o data = some seq ∨ des3SeqBlock o data = some seq) ∧
        C2I seq = k5.acceptseqnr) ∧
    (∀ data seq, gss_decapsulate_token input = some (krb5Oid, data) →
      data.take 2 = [0x02, 0x01] → (data.drop 6).take 2 = [0xFF, 0xFF] →
      sgnAlgOf data = 0 → ¬ data.length < 40 →
      desSeqBlock o data = some seq → seq.length = 8 →
      seq.drop 4 = unwrapRoleBytes k5.acceptor →
      C2I seq ≠ k5.acceptseqnr →
      gss_krb5_unwrap o k5 input =
        ⟨GSS_S_BAD_MIC, k5, some (sealAlgOf data == 0xFFFF), none⟩) ∧
    (∀ data seq, gss_decapsulate_token input = some (krb5Oid, data) →
      data.take 2 = [0x02, 0x01] → (data.drop 6).take 2 = [0xFF, 0xFF] →
      sgnAlgOf data = 4 → ¬ data.length < 52 →
      des3SeqBlock o data = some seq → seq.length = 8 →
      seq.drop 4 = unwrapRoleBytes k5.acceptor →
      C2I seq ≠ k5.acceptseqnr →
      gss_krb5_unwrap o k5 input =
        ⟨GSS_S_BAD_MIC, k5, some (sealAlgOf data == 0xFFFF), none⟩) := by
  refine ⟨?_, ?_, ?_⟩
  · intro hms
    obtain ⟨hk, oid, data, seq, hd, _, hblk, hC, _⟩ :=
      unwrap_complete_inv o k5 input _ rfl hms
    exact ⟨by rw [hk], oid, data, seq, hd, hblk, hC⟩
  · intro data seq hdecap htok hfill hsgn hlen hseq hslen hrole hC
    have hlen8 : ¬ data.length < 8 := by omega
    simp only [gss_krb5_unwrap, desUnwrap]
    rw [hdecap]
    simp [htok, hfill, hsgn, hseq, hslen, hrole, hC, hlen, hlen8]
  · intro data seq hdecap htok hfill hsgn hlen hseq hslen hrole hC
    have hlen8 : ¬ data.length < 8 := by omega
    have hsgn0 : ¬ sgnAlgOf data = 0 := by simp [hsgn]
    simp only [gss_krb5_unwrap, des3Unwrap]
    rw [hdecap]
    simp [htok, hfill, hsgn, hsgn0, hseq, hslen, hrole, hC, hlen, hlen8]

/-- C3 witness: a token whose decrypted sequence number 0 does not match an
acceptor context expecting 5 is rejected with `GSS_S_BAD_MIC`, context
untouched. -/
theorem C3_unwrap_sequence_enforcement_witness :
    gss_krb5_unwrap desTestOracle ⟨3, true, 0, 0, 5, false⟩ desTestTok =
      ⟨GSS_S_BAD_MIC, ⟨3, true, 0, 0, 5, false⟩,
       some (sealAlgOf desTestData == 0xFFFF), none⟩ :=
  (C3_unwrap_sequence_enforcement desTestOracle ⟨3, true, 0, 0, 5, false⟩
      desTestTok).2.1 desTestData [0, 0, 0, 0, 0, 0, 0, 0]
    (by decide) (by decide) (by decide) (by decide) (by decide)
    rfl (by decide) (by decide) (by decide)

/-- C7 counterexample: the claim's direction labels are swapped.  On an
acceptor context (whose peer is the initiator) the claim demands trailing
bytes `0xFFFFFFFF`; the code instead requires `0x00000000` there
(`msg.c:289-291`) and completes successfully on a block with trailing
zeros — not `GSS_S_BAD_MIC` as the claim predicts. -/
theorem C7_counterexample_role_direction :
    desTestCtx.acceptor = true ∧
    desSeqBlock desTestOracle desTestData = some [0, 0, 0, 0, 0, 0, 0, 0] ∧
    ¬ ([0, 0, 0, 0, 0, 0, 0, 0] : List Nat).drop 4 = [0xFF, 0xFF, 0xFF, 0xFF] ∧
    (gss_krb5_unwrap desTestOracle desTestCtx desTestTok).majStat = GSS_S_COMPLETE ∧
    ¬ (gss_krb5_unwrap desTestOracle desTestCtx desTestTok).majStat = GSS_S_BAD_MIC :=
  ⟨rfl, rfl, by decide, rfl, by decide⟩

/-- C7 (amended): the trailing 4 bytes of the decrypted sequence-number block
must equal `0x00000000` when the message came from the initiator (i.e. the
unwrapping context is the acceptor) and `0xFFFFFFFF` when it came from the
acceptor (unwrapping context is the initiator) — exactly the bytes the
peer-role `gss_krb5_wrap` writes (`msg.c:105`); any mismatch yields
`GSS_S_BAD_MIC` with the context unchanged. -/
theorem C7_unwrap_role_bytes (o : ShishiCrypto) (k5 : Krb5Ctx)
    (input : List Nat) :
    (∀ s (a : Bool), (wrapSeqnoBytes s a).drop 4 = unwrapRoleBytes (!a)) ∧
    ((gss_krb5_unwrap o k5 input).majStat = GSS_S_COMPLETE →
      ∃ oid data seq, gss_decapsulate_token input = some (oid, data) ∧
        (desSeqBlock o data = some seq ∨ des3SeqBlock o data = some seq) ∧
        seq.drop 4 = unwrapRoleBytes k5.acceptor) ∧
    (∀ data seq, gss_decapsulate_token input = some (krb5Oid, data) →
      data.take 2 = [0x02, 0x01] → (data.drop 6).take 2 = [0xFF, 0xFF] →
      sgnAlgOf data = 0 → ¬ data.length < 40 →
      desSeqBlock o data = some seq → seq.length = 8 →
      seq.drop 4 ≠ unwrapRoleBytes k5.acceptor →
      gss_krb5_unwrap o k5 input =
        ⟨GSS_S_BAD_MIC, k5, some (sealAlgOf data == 0xFFFF), none⟩) ∧
    (∀ data seq, gss_decapsulate_token input = some (krb5Oid, data) →
      data.take 2 = [0x02, 0x01] → (data.drop 6).take 2 = [0xFF, 0xFF] →
      sgnAlgOf data = 4 → ¬ data.length < 52 →
      des3SeqBlock o data = some seq → seq.length = 8 →
      seq.drop 4 ≠ unwrapRoleBytes k5.acceptor →
      gss_krb5_unwrap o k5 input =
        ⟨GSS_S_BAD_MIC, k5, some (sealAlgOf data == 0xFFFF), none⟩) := by
  refine ⟨?_, ?_, ?_, ?_⟩
  · intro s a; cases a <;> rfl
  · intro hms
    obtain ⟨_, oid, data, seq, hd, _, hblk, _, hrole⟩ :=
      unwrap_complete_inv o k5 input _ rfl hms
    exact ⟨oid, data, seq, hd, hblk, hrole⟩
  · intro data seq hdecap htok hfill hsgn hlen hseq hslen hrole
    have hlen8 : ¬ data.length < 8 := by omega
    simp only [gss_krb5_unwrap, desUnwrap]
    rw [hdecap]
    simp [htok, hfill, hsgn, hseq, hslen, hrole, hlen, hlen8]
  · intro data seq hdecap htok hfill hsgn hlen hseq hslen hrole
    have hlen8 : ¬ data.length < 8 := by omega
    have hsgn0 : ¬ sgnAlgOf data = 0 := by simp [hsgn]
    simp only [gss_krb5_unwrap, des3Unwrap]
    rw [hdecap]
    simp [htok, hfill, hsgn, hsgn0, hseq, hslen, hrole, hlen, hlen8]

/-- C7 witness: an initiator context (expecting trailing `0xFFFFFFFF`)
rejects a block with trailing zeros with `GSS_S_BAD_MIC`, context
untouched. -/
theorem C7_unwrap_role_bytes_witness :
    gss_krb5_unwrap desTestOracle initTestCtx desTestTok =
      ⟨GSS_S_BAD_MIC, initTestCtx, some (sealAlgOf desTestData == 0xFFFF), none⟩ :=
  (C7_unwrap_role_bytes desTestOracle initTestCtx desTestTok).2.2.1
    desTestData [0, 0, 0, 0, 0, 0, 0, 0]
    (by decide) (by decide) (by decide) (by decide) (by decide)
    rfl (by decide) (by decide)

/-- C10: `acceptseqnr` is incremented as soon as the sequence check passes
(`msg.c:297`, `msg.c:367`), before pad and checksum verification; a call
failing either later check returns `GSS_S_BAD_MIC` with `acceptseqnr`
already advanced by one, in both cipher arms. -/
theorem C10_acceptseqnr_advanced_before_pad_cksum (o : ShishiCrypto)
    (k5 : Krb5Ctx) (input : List Nat) :
    (∀ data seq, gss_decapsulate_token input = some (krb5Oid, data) →
      data.take 2 = [0x02, 0x01] → (data.drop 6).take 2 = [0xFF, 0xFF] →
      sgnAlgOf data = 0 → ¬ data.length < 40 →
      desSeqBlock o data = some seq → seq.length = 8 →
      seq.drop 4 = unwrapRoleBytes k5.acceptor → C2I seq = k5.acceptseqnr →
      8 < padLenOf data →
      gss_krb5_unwrap o k5 input =
        ⟨GSS_S_BAD_MIC, { k5 with acceptseqnr := k5.acceptseqnr + 1 },
         some (sealAlgOf data == 0xFFFF), none⟩) ∧
    (∀ data seq t, gss_decapsulate_token input = some (krb5Oid, data) →
      data.take 2 = [0x02, 0x01] → (data.drop 6).take 2 = [0xFF, 0xFF] →
      sgnAlgOf data = 0 → ¬ data.length < 40 →
      desSeqBlock o data = some seq → seq.length = 8 →
      seq.drop 4 = unwrapRoleBytes k5.acceptor → C2I seq = k5.acceptseqnr →
      ¬ 8 < padLenOf data → padOk data (padLenOf data) = true →
      o.checksum 0 SHISHI_RSA_MD5_DES_GSS (desCksumRegion data) = some t →
      t.length = 8 → t ≠ (data.drop 16).take 8 →
      gss_krb5_unwrap o k5 input =
        ⟨GSS_S_BAD_MIC, { k5 with acceptseqnr := k5.acceptseqnr + 1 },
         some (sealAlgOf data == 0xFFFF), none⟩) ∧
    (∀ data seq, gss_decapsulate_token input = some (krb5Oid, data) →
      data.take 2 = [0x02, 0x01] → (data.drop 6).take 2 = [0xFF, 0xFF] →
      sgnAlgOf data = 4 → ¬ data.length < 52 →
      des3SeqBlock o data = some seq → seq.length = 8 →
      seq.drop 4 = unwrapRoleBytes k5.acceptor → C2I seq = k5.acceptseqnr →
      8 < padLenOf data →
      gss_krb5_unwrap o k5 input =
        ⟨GSS_S_BAD_MIC, { k5 with acceptseqnr := k5.acceptseqnr + 1 },
         some (sealAlgOf data == 0xFFFF), none⟩) ∧
    (∀ data seq t, gss_decapsulate_token input = some (krb5Oid, data) →
      data.take 2 = [0x02, 0x01] → (data.drop 6).take 2 = [0xFF, 0xFF] →
      sgnAlgOf data = 4 → ¬ data.length < 52 →
      des3SeqBlock o data = some seq → seq.length = 8 →
      seq.drop 4 = unwrapRoleBytes k5.acceptor → C2I seq = k5.acceptseqnr →
      ¬ 8 < padLenOf data → padOk data (padLenOf data) = true →
      o.checksum SHISHI_KEYUSAGE_GSS_R2 SHISHI_HMAC_SHA1_DES3_KD
        (des3CksumRegion data) = some t →
      t.length = 20 → t ≠ (data.drop 16).take 20 →
      gss_krb5_unwrap o k5 input =
        ⟨GSS_S_BAD_MIC, { k5 with acceptseqnr := k5.acceptseqnr + 1 },
         some (sealAlgOf data == 0xFFFF), none⟩) := by
  refine ⟨?_, ?_, ?_, ?_⟩
  · intro data seq hdecap htok hfill hsgn hlen hseq hslen hrole hC hpad
    have hlen8 : ¬ data.length < 8 := by omega
    simp only [gss_krb5_unwrap, desUnwrap]
    rw [hdecap]
    simp [htok, hfill, hsgn, hseq, hslen, hrole, hC, hpad, hlen, hlen8]
  · intro data seq t hdecap htok hfill hsgn hlen hseq hslen hrole hC hpad
      hpadok hcks htlen htne
    have hlen8 : ¬ data.length < 8 := by omega
    simp only [gss_krb5_unwrap, desUnwrap]
    rw [hdecap]
    simp [htok, hfill, hsgn, hseq, hslen, hrole, hC, hpad, hpadok, hcks,
      htlen, htne, hlen, hlen8]
  · intro data seq hdecap htok hfill hsgn hlen hseq hslen hrole hC hpad
    have hlen8 : ¬ data.length < 8 := by omega
    have hsgn0 : ¬ sgnAlgOf data = 0 := by simp [hsgn]
    simp only [gss_krb5_unwrap, des3Unwrap]
    rw [hdecap]
    simp [htok, hfill, hsgn, hsgn0, hseq, hslen, hrole, hC, hpad, hlen, hlen8]
  · intro data seq t hdecap htok hfill hsgn hlen hseq hslen hrole hC hpad
      hpadok hcks htlen htne
    have hlen8 : ¬ data.length < 8 := by omega
    have hsgn0 : ¬ sgnAlgOf data = 0 := by simp [hsgn]
    simp only [gss_krb5_unwrap, des3Unwrap]
    rw [hdecap]
    simp [htok, hfill, hsgn, hsgn0, hseq, hslen, hrole, hC, hpad, hpadok,
      hcks, htlen, htne, hlen, hlen8]

/-- C10 witness: a token whose sequence number matches but whose pad byte is
9 is rejected with `GSS_S_BAD_MIC` while `acceptseqnr` has already advanced
from 0 to 1. -/
theorem C10_acceptseqnr_advanced_before_pad_cksum_witness :
    gss_krb5_unwrap desTestOracle desTestCtx badPadTok =
      ⟨GSS_S_BAD_MIC, { desTestCtx with acceptseqnr := desTestCtx.acceptseqnr + 1 },
       some (sealAlgOf badPadData == 0xFFFF), none⟩ :=
  (C10_acceptseqnr_advanced_before_pad_cksum desTestOracle desTestCtx
      badPadTok).1 badPadData [0, 0, 0, 0, 0, 0, 0, 0]
    (by decide) (by decide) (by decide) (by decide) (by decide)
    rfl (by decide) (by decide) (by decide) (by decide)

/-- C5 counterexample: an error return from the acceptor's first call that
does NOT leave the handle at `GSS_C_NO_CONTEXT`: a well-formed envelope
under the Kerberos OID with inner prefix `0x02 0x00` passes the generic
surface, and `gss_krb5_accept_sec_context` stores the freshly allocated
context in `*context_handle` (`krb5/context.c:272`) before rejecting the
prefix with `GSS_S_BAD_MIC`; the generic accept performs no cleanup
(`context.c:740`). -/
theorem C5_counterexample_handle_kept_on_mech_error :
    (gss_accept_sec_context_krb5 acceptTestOracle true false none
        apRepPrefixTok false).majStat = GSS_S_BAD_MIC ∧
    GSS_ERROR (gss_accept_sec_context_krb5 acceptTestOracle true false none
        apRepPrefixTok false).majStat = true ∧
    (gss_accept_sec_context_krb5 acceptTestOracle true false none
        apRepPrefixTok false).ctx ≠ none :=
  ⟨rfl, rfl, by decide⟩

/-- C5 (amended): on the acceptor's first call, a decapsulation failure at
the generic surface yields `GSS_S_DEFECTIVE_TOKEN` with no context created
(`context.c:713-721`); but a mechanism-level failure after the Kerberos
acceptor has allocated the context is returned without cleanup, leaving the
caller's handle on the partially built context. -/
theorem C5_accept_first_call_error_handling (o : Krb5AcceptOracle)
    (inputToken : List Nat) (srcReq : Bool) :
    (gss_decapsulate_token inputToken = none →
      gss_accept_sec_context_krb5 o true false none inputToken srcReq =
        ⟨GSS_S_DEFECTIVE_TOKEN, none, [], 0⟩) ∧
    (∀ data, gss_decapsulate_token inputToken = some (krb5Oid, data) →
      o.apOk = true → ¬ data.take 2 = [0x01, 0x00] →
      gss_accept_sec_context_krb5 o true false none inputToken srcReq =
        ⟨GSS_S_BAD_MIC,
         some ⟨krb5Oid, some { freshKrb5Ctx with acceptor := true }⟩, [], 0⟩) := by
  constructor
  · intro hdecap
    simp only [gss_accept_sec_context_krb5, gss_accept_sec_context_gen]
    rw [hdecap]
    simp
  · intro data hdecap hap hpre
    simp only [gss_accept_sec_context_krb5, gss_accept_sec_context_gen,
      gss_krb5_accept_sec_context]
    rw [hdecap]
    simp [_gss_find_mech_no_default, hap, hpre]

/-- C5 amended witness: a truncated envelope is `GSS_S_DEFECTIVE_TOKEN` with
no context; a Kerberos envelope with a bad inner prefix is `GSS_S_BAD_MIC`
with the handle left on the allocated acceptor context. -/
theorem C5_accept_first_call_error_handling_witness :
    gss_accept_sec_context_krb5 acceptTestOracle true false none truncTok false =
      ⟨GSS_S_DEFECTIVE_TOKEN, none, [], 0⟩ ∧
    gss_accept_sec_context_krb5 acceptTestOracle true false none
        apRepPrefixTok false =
      ⟨GSS_S_BAD_MIC,
       some ⟨krb5Oid, some { freshKrb5Ctx with acceptor := true }⟩, [], 0⟩ :=
  ⟨(C5_accept_first_call_error_handling acceptTestOracle truncTok false).1
      (by decide),
   (C5_accept_first_call_error_handling acceptTestOracle apRepPrefixTok false).2
      [0x02, 0x00] (by decide) rfl (by decide)⟩

end Gss
